import Mathlib

/-!
Shallow embedding of the Tshikota Ro Farana stokvel ledger core
(`js/firebase-config.js` APP_SETTINGS, the `Utils` helpers, and the
`Database` operations module).  Firestore collections are modelled as
association lists keyed by document id; the ambient wall clock of
`new Date()` is passed explicitly where the code reads it; a Firestore
batch commit is modelled by the operation returning either the whole
next state (`Except.ok`) or an error with no state change, which is
exactly the all-or-nothing visibility the batch provides.  Monetary
amounts are integers (the app works in whole rand).
-/

namespace Stokvel

/-! ## Policy constants (APP_SETTINGS in firebase-config.js) -/

def minimumDeposit : Int := 300
def lateFineAmount : Int := 50
def graceperiodEndDay : Nat := 7
def interestEligibilityMin : Int := 10000
def maxSkippedMonths : Nat := 3

/-! ## Data model -/

/-- A calendar date as the code reads it off a JS `Date` (year, month 1-12, day 1-31). -/
structure Date where
  year : Nat
  month : Nat
  day : Nat
deriving DecidableEq, Repr

/-- A member document (collection `members`), with the aggregate fields
`Database.addMember` initialises and `Database.approveSubmission` updates. -/
structure Member where
  name : String
  phone : String
  totalSavings : Int
  totalFines : Int
  submissionCount : Nat
  verifiedCount : Nat
  status : String
  skippedMonths : Nat
deriving DecidableEq, Repr

/-- A submission document (collection `submissions`), as created by
`Database.submitPOP` and mutated by approve/reject.  `paymentDate` is
`none` when the submitter left the date out (the JS code then builds an
Invalid Date whose `getDate()` is NaN). -/
structure Submission where
  name : String
  phone : String
  amount : Int
  paymentDate : Option Date
  paymentMonth : String
  reference : String
  status : String
  isLate : Bool
  fineAmount : Int
  memberId : Option String
  rejectionReason : Option String
deriving DecidableEq, Repr

/-- An interest-pool document (collection `interestPool`, keyed by year). -/
structure Pool where
  totalFines : Int
  bankInterest : Int
deriving DecidableEq, Repr

/-- The Firestore state the ledger core touches. -/
structure DB where
  members : List (String × Member)
  submissions : List (String × Submission)
  interestPool : List (Nat × Pool)
deriving DecidableEq, Repr

def emptyDB : DB := { members := [], submissions := [], interestPool := [] }

/-! ## Association-list helpers (document get / update / set-with-merge) -/

/-- Document lookup by id. -/
def alook {K V : Type} [DecidableEq K] (k : K) : List (K × V) → Option V
  | [] => none
  | (k₀, v₀) :: rest => if k₀ = k then some v₀ else alook k rest

/-- Document update by id (Firestore `update`: a no-op shape on a missing id;
the operations below only call it after a successful lookup). -/
def aset {K V : Type} [DecidableEq K] (k : K) (v : V) : List (K × V) → List (K × V)
  | [] => []
  | (k₀, v₀) :: rest => if k₀ = k then (k₀, v) :: rest else (k₀, v₀) :: aset k v rest

/-- `batch.set(interestRef, { totalFines: increment(f) }, { merge: true })`:
increments the year's `totalFines` when the document exists, otherwise creates
it with `totalFines = f` (and no bank interest yet, read back as 0). -/
def upsertPool (y : Nat) (f : Int) : List (Nat × Pool) → List (Nat × Pool)
  | [] => [(y, { totalFines := f, bankInterest := 0 })]
  | (y₀, p) :: rest =>
      if y₀ = y then (y₀, { p with totalFines := p.totalFines + f }) :: rest
      else (y₀, p) :: upsertPool y f rest

/-! ## Utils helpers used by the core -/

/-- Utils.isPaymentLate: `paymentDate.getDate() > graceEnd`.  With a missing
date the JS value is an Invalid Date, `getDate()` is NaN, and `NaN > 7` is
false. -/
def isPaymentLate : Option Date → Bool
  | some d => decide (d.day > graceperiodEndDay)
  | none => false

/-- Utils.qualifiesForInterest: `totalSavings >= interestEligibilityMin`. -/
def qualifiesForInterest (totalSavings : Int) : Bool :=
  decide (interestEligibilityMin ≤ totalSavings)

/-- Utils.getMonthName: `months[month - 1] || ''`. -/
def getMonthName (m : Nat) : String :=
  if m = 0 then ""
  else ["January", "February", "March", "April", "May", "June",
        "July", "August", "September", "October", "November",
        "December"].getD (m - 1) ""

/-- The payment-month label the report builds: `monthName month ++ " " ++ year`. -/
def paymentMonthLabel (month year : Nat) : String :=
  getMonthName month ++ " " ++ toString year

/-! ## Database operations -/

/-- The errors the embedded operations can surface (a rejected Firestore
update/batch on a missing document, or the explicit `Submission not found`). -/
inductive DbError
  | notFound
deriving DecidableEq, Repr

/-- The caller-supplied fields of a proof-of-payment submission. -/
structure SubmissionData where
  name : String
  phone : String
  amount : Int
  paymentDate : Option Date
  paymentMonth : String
deriving DecidableEq, Repr

/-- The submission record `Database.submitPOP` writes: computes `isLate`
from the payment date, `fineAmount := isLate ? lateFineAmount : 0`, stores
the generated reference and `status = 'pending'`. -/
def newSubmission (data : SubmissionData) (reference : String) : Submission :=
  let isLate := isPaymentLate data.paymentDate
  { name := data.name
    phone := data.phone
    amount := data.amount
    paymentDate := data.paymentDate
    paymentMonth := data.paymentMonth
    reference := reference
    status := "pending"
    isLate := isLate
    fineAmount := if isLate then lateFineAmount else 0
    memberId := none
    rejectionReason := none }

/-- Database.submitPOP.  The random reference and the Firestore-generated
document id are passed in as parameters (the code draws them from
`Utils.generateReference` and `collection.add`).  The code performs no
validation: every input is written as a pending submission. -/
def submitPOP (db : DB) (data : SubmissionData) (reference newId : String) : DB :=
  { db with submissions := (newId, newSubmission data reference) :: db.submissions }

/-- The caller-supplied fields of a new member. -/
structure MemberData where
  name : String
  phone : String
deriving DecidableEq, Repr

/-- Database.addMember: initialises every aggregate to zero and
`status = 'active'`, `skippedMonths = 0`. -/
def addMember (db : DB) (newId : String) (data : MemberData) : DB :=
  { db with members :=
      (newId,
        { name := data.name
          phone := data.phone
          totalSavings := 0
          totalFines := 0
          submissionCount := 0
          verifiedCount := 0
          status := "active"
          skippedMonths := 0 }) :: db.members }

/-- Database.approveSubmission.  Fetches the submission (error if absent),
then commits one batch that (a) sets `status = 'verified'` and stores the
`memberId` argument on the submission, (b) if a member id was given,
increments that member's `totalSavings` by the submission's amount and
`totalFines` by its `fineAmount`, bumps `verifiedCount`, resets
`skippedMonths = 0` (the batch update fails, atomically, if the member
document is missing), and (c) if `fineAmount > 0`, increments the
interest pool keyed by `new Date().getFullYear()` — the wall-clock year at
approval time, passed here as `nowYear`.  Note the code never checks that
the current status is `'pending'`. -/
def approveSubmission (db : DB) (nowYear : Nat) (submissionId : String)
    (memberId : Option String) : Except DbError DB :=
  match alook submissionId db.submissions with
  | none => .error .notFound
  | some s =>
    let submissions' :=
      aset submissionId { s with status := "verified", memberId := memberId }
        db.submissions
    let pools' :=
      if s.fineAmount > 0 then upsertPool nowYear s.fineAmount db.interestPool
      else db.interestPool
    match memberId with
    | none => .ok { db with submissions := submissions', interestPool := pools' }
    | some mid =>
      match alook mid db.members with
      | none => .error .notFound
      | some m =>
        let members' :=
          aset mid
            { m with
              totalSavings := m.totalSavings + s.amount
              totalFines := m.totalFines + s.fineAmount
              verifiedCount := m.verifiedCount + 1
              skippedMonths := 0 }
            db.members
        .ok { members := members', submissions := submissions', interestPool := pools' }

/-- Database.rejectSubmission: a single update setting `status = 'rejected'`
and storing the reason (the Firestore update rejects when the document is
missing).  It touches no member and no interest-pool document, and, like
approve, never checks that the current status is `'pending'`. -/
def rejectSubmission (db : DB) (submissionId : String) (reason : String) :
    Except DbError DB :=
  match alook submissionId db.submissions with
  | none => .error .notFound
  | some s =>
    let s' := { s with status := "rejected", rejectionReason := some reason }
    .ok { db with submissions := aset submissionId s' db.submissions }

/-- Database.getInterestPool: the stored document, or the default
`{ totalFines: 0, bankInterest: 0 }` when the year has no document. -/
def getInterestPool (db : DB) (year : Nat) : Pool :=
  match alook year db.interestPool with
  | some p => p
  | none => { totalFines := 0, bankInterest := 0 }

/-- The result of Database.calculateInterestDistribution. -/
structure Distribution where
  year : Nat
  totalPool : Int
  qualifyingMembersCount : Nat
  perMemberAmount : Int
  qualifyingMembers : List (String × Member)
deriving DecidableEq, Repr

/-- Database.calculateInterestDistribution: a pure read.
`totalPool = pool.totalFines + pool.bankInterest`; qualifying members are
the active members with `totalSavings >= interestEligibilityMin`;
`perMemberAmount = Math.floor(totalPool / count)` guarded to 0 when no one
qualifies (`Math.floor` of an exact quotient is `Int.fdiv`). -/
def calculateInterestDistribution (db : DB) (year : Nat) : Distribution :=
  let pool := getInterestPool db year
  let qualifying := db.members.filter
    (fun p => p.2.status == "active" && qualifiesForInterest p.2.totalSavings)
  let totalPool := pool.totalFines + pool.bankInterest
  let perMember :=
    if qualifying.length > 0 then Int.fdiv totalPool (qualifying.length : Int)
    else 0
  { year := year
    totalPool := totalPool
    qualifyingMembersCount := qualifying.length
    perMemberAmount := perMember
    qualifyingMembers := qualifying }

/-- Rounding a percentage the way `Math.round((c / m) * 100)` does over the
exact rational value: round half up, i.e. `⌊(100c/m) + 1/2⌋`. -/
def roundPct (c m : Nat) : Nat := (200 * c + m) / (2 * m)

/-- The fields of the report object Database.generateMonthlyReport returns
(the wall-clock `generatedAt` stamp is omitted). -/
structure Report where
  period : String
  totalMembers : Nat
  subsTotal : Nat
  subsVerified : Nat
  subsPending : Nat
  subsRejected : Nat
  totalAmount : Int
  totalFines : Int
  latePayments : Nat
  compliantMembers : Nat
  complianceRate : Nat
deriving DecidableEq, Repr

/-- Database.generateMonthlyReport: filters the month's submissions by the
`paymentMonth` label, splits them by status, totals the verified amounts and
fines, and computes `complianceRate = Math.round((verified.length /
members.length) * 100)` with 0 when there are no members.  Note
`compliantMembers` is the count of verified submissions, not of distinct
submitting members. -/
def generateMonthlyReport (db : DB) (month year : Nat) : Report :=
  let label := paymentMonthLabel month year
  let subs := db.submissions.filter (fun p => p.2.paymentMonth == label)
  let verified := subs.filter (fun p => p.2.status == "verified")
  let pending := subs.filter (fun p => p.2.status == "pending")
  let rejected := subs.filter (fun p => p.2.status == "rejected")
  let totalAmount := (verified.map (fun p => p.2.amount)).sum
  let totalFines := (verified.map (fun p => p.2.fineAmount)).sum
  let latePayments := (verified.filter (fun p => p.2.isLate)).length
  let compliant := verified.length
  let rate :=
    if db.members.length > 0 then roundPct compliant db.members.length else 0
  { period := label
    totalMembers := db.members.length
    subsTotal := subs.length
    subsVerified := verified.length
    subsPending := pending.length
    subsRejected := rejected.length
    totalAmount := totalAmount
    totalFines := totalFines
    latePayments := latePayments
    compliantMembers := compliant
    complianceRate := rate }

/-! ## Operation traces -/

/-- One admin/member action against the store. -/
inductive Op
  | submit (data : SubmissionData) (reference newId : String)
  | addMem (newId : String) (data : MemberData)
  | approve (nowYear : Nat) (sid : String) (memberId : Option String)
  | reject (sid : String) (reason : String)
deriving DecidableEq, Repr

/-- Running an action: a failed batch/update leaves the store unchanged. -/
def runOp (db : DB) : Op → DB
  | .submit data reference newId => submitPOP db data reference newId
  | .addMem newId data => addMember db newId data
  | .approve nowYear sid memberId =>
      match approveSubmission db nowYear sid memberId with
      | .ok db' => db'
      | .error _ => db
  | .reject sid reason =>
      match rejectSubmission db sid reason with
      | .ok db' => db'
      | .error _ => db

/-- Running a sequence of actions. -/
def runOps (db : DB) : List Op → DB
  | [] => db
  | op :: ops => runOps (runOp db op) ops

/-! ## Helper lemmas about the association-list store -/

theorem alook_aset {K V : Type} [DecidableEq K] (k k' : K) (v : V)
    (l : List (K × V)) :
    alook k' (aset k v l) =
      if k' = k then (alook k l).map (fun _ => v) else alook k' l := by
  induction l with
  | nil => by_cases h : k' = k <;> simp [alook, aset, h]
  | cons hd tl ih =>
    obtain ⟨k₀, v₀⟩ := hd
    by_cases h₀ : k₀ = k
    · subst h₀
      by_cases h₁ : k' = k₀
      · subst h₁; simp [alook, aset]
      · have h₂ : ¬ k₀ = k' := Ne.symm h₁
        simp [alook, aset, h₁, h₂]
    · by_cases h₁ : k₀ = k'
      · subst h₁
        simp [alook, aset, h₀]
      · simp [alook, aset, h₀, h₁, ih]

/-- The `totalFines` field the store holds for a year (0 when absent,
matching how `getInterestPool` reads it back). -/
def poolTotalFines (l : List (Nat × Pool)) (y : Nat) : Int :=
  match alook y l with
  | some p => p.totalFines
  | none => 0

theorem poolTotalFines_upsert_self (y : Nat) (f : Int) (l : List (Nat × Pool)) :
    poolTotalFines (upsertPool y f l) y = poolTotalFines l y + f := by
  induction l with
  | nil => simp [poolTotalFines, upsertPool, alook]
  | cons hd tl ih =>
    obtain ⟨y₀, p⟩ := hd
    by_cases h : y₀ = y
    · subst h; simp [poolTotalFines, upsertPool, alook]
    · simpa [poolTotalFines, upsertPool, alook, h] using ih

theorem poolTotalFines_upsert_ne (y y' : Nat) (f : Int) (l : List (Nat × Pool))
    (h : y' ≠ y) :
    poolTotalFines (upsertPool y f l) y' = poolTotalFines l y' := by
  induction l with
  | nil => simp [poolTotalFines, upsertPool, alook, Ne.symm h]
  | cons hd tl ih =>
    obtain ⟨y₀, p⟩ := hd
    by_cases h₀ : y₀ = y
    · subst h₀
      simp [poolTotalFines, upsertPool, alook, Ne.symm h]
    · by_cases h₁ : y₀ = y'
      · subst h₁; simp [poolTotalFines, upsertPool, alook, h₀]
      · simpa [poolTotalFines, upsertPool, alook, h₀, h₁] using ih

theorem getInterestPool_totalFines (db : DB) (y : Nat) :
    (getInterestPool db y).totalFines = poolTotalFines db.interestPool y := by
  unfold getInterestPool poolTotalFines
  cases alook y db.interestPool <;> rfl

/-! ## Claim C3 -/

/-- An invalid submission input: non-positive amount and missing payment
date. -/
def c3Data : SubmissionData :=
  { name := "Rendani"
    phone := "0821234567"
    amount := -5
    paymentDate := none
    paymentMonth := "March 2025" }

/-- C3 counterexample: `Database.submitPOP` performs no validation at all.
For the input with `amount = -5 ≤ 0` and no payment date, it does not fail
with a `ValidationError` — it is a total operation — and it creates exactly
one new pending submission record, refuting the claim that no record is
created. -/
theorem c3_counterexample :
    c3Data.amount ≤ 0
    ∧ c3Data.paymentDate = none
    ∧ (submitPOP emptyDB c3Data "TRF-AAAAAA" "s1").submissions.length = 1
    ∧ alook "s1" (submitPOP emptyDB c3Data "TRF-AAAAAA" "s1").submissions
        = some (newSubmission c3Data "TRF-AAAAAA")
    ∧ (newSubmission c3Data "TRF-AAAAAA").status = "pending" := by
  refine ⟨by decide, rfl, rfl, ?_, rfl⟩
  simp [submitPOP, alook]

/-- C3 amended: `submitPOP` validates nothing at the core boundary.  For
every input — including one with `amount ≤ 0` or a missing payment date —
it succeeds and prepends exactly one new submission record with
`status = 'pending'`; input validation exists only in the UI form layer. -/
theorem c3_amended (db : DB) (data : SubmissionData) (reference newId : String) :
    (submitPOP db data reference newId).submissions
        = (newId, newSubmission data reference) :: db.submissions
    ∧ (newSubmission data reference).status = "pending" :=
  ⟨rfl, rfl⟩

/-! ## Claim C10 -/

/-- C10: for a year with no stored interest-pool document,
`Database.getInterestPool` returns the default record with
`totalFines = 0` and `bankInterest = 0` instead of failing, and
`Database.calculateInterestDistribution` for that year is defined and
yields `totalPool = 0` and `perMemberAmount = 0`. -/
theorem c10_default_pool (db : DB) (y : Nat)
    (h : alook y db.interestPool = none) :
    getInterestPool db y = { totalFines := 0, bankInterest := 0 }
    ∧ (calculateInterestDistribution db y).totalPool = 0
    ∧ (calculateInterestDistribution db y).perMemberAmount = 0 := by
  have hp : getInterestPool db y = { totalFines := 0, bankInterest := 0 } := by
    unfold getInterestPool
    rw [h]
  refine ⟨hp, ?_, ?_⟩
  · simp [calculateInterestDistribution, hp]
  · simp only [calculateInterestDistribution, hp]
    split <;> simp

/-- C10 witness: the empty store has no pool document for 2025, and the
theorem applies there. -/
theorem c10_default_pool_witness :
    alook 2025 emptyDB.interestPool = none
    ∧ (getInterestPool emptyDB 2025 = { totalFines := 0, bankInterest := 0 }
        ∧ (calculateInterestDistribution emptyDB 2025).totalPool = 0
        ∧ (calculateInterestDistribution emptyDB 2025).perMemberAmount = 0) :=
  ⟨rfl, c10_default_pool emptyDB 2025 rfl⟩

/-! ## Claim C7 -/

/-- C7: for every year, `Database.calculateInterestDistribution` returns
`totalPool = totalFines + bankInterest`; its qualifying members are exactly
the stored members that are active with `totalSavings ≥
interestEligibilityMin`; and `perMemberAmount` is the floor of
`totalPool / count`, guarded to 0 when nobody qualifies.  The operation is
a pure read: its type `DB → Nat → Distribution` returns no store, so it
mutates no ledger state. -/
theorem c7_distribution (db : DB) (y : Nat) :
    (calculateInterestDistribution db y).totalPool
        = (getInterestPool db y).totalFines + (getInterestPool db y).bankInterest
    ∧ (∀ pm : String × Member,
        pm ∈ (calculateInterestDistribution db y).qualifyingMembers ↔
          pm ∈ db.members ∧ pm.2.status = "active"
            ∧ interestEligibilityMin ≤ pm.2.totalSavings)
    ∧ (calculateInterestDistribution db y).qualifyingMembersCount
        = (calculateInterestDistribution db y).qualifyingMembers.length
    ∧ (calculateInterestDistribution db y).perMemberAmount
        = (if (calculateInterestDistribution db y).qualifyingMembersCount = 0
           then 0
           else Int.fdiv (calculateInterestDistribution db y).totalPool
                ((calculateInterestDistribution db y).qualifyingMembersCount : Int)) := by
  refine ⟨rfl, ?_, rfl, ?_⟩
  · intro pm
    simp [calculateInterestDistribution, List.mem_filter, qualifiesForInterest,
      Bool.and_eq_true, and_assoc]
  · simp only [calculateInterestDistribution]
    rcases Nat.eq_zero_or_pos
        (db.members.filter
          (fun p => p.2.status == "active"
            && qualifiesForInterest p.2.totalSavings)).length with h | h
    · simp [h]
    · simp [h, Nat.pos_iff_ne_zero.mp h]

/-! ## Claim C8 -/

/-- C8: rejecting a submission modifies only that submission's record — it
becomes `rejected` with the stored reason — while every member document,
every interest-pool document, and every other submission are unchanged. -/
theorem c8_reject_frame (db : DB) (sid reason : String) (s : Submission)
    (hs : alook sid db.submissions = some s) :
    ∃ db', rejectSubmission db sid reason = .ok db'
      ∧ db'.members = db.members
      ∧ db'.interestPool = db.interestPool
      ∧ alook sid db'.submissions
          = some { s with status := "rejected", rejectionReason := some reason }
      ∧ ∀ sid', sid' ≠ sid →
          alook sid' db'.submissions = alook sid' db.submissions := by
  have hdb' : rejectSubmission db sid reason
      = .ok { db with submissions := (aset sid { s with status := "rejected", rejectionReason := some reason } db.submissions) } := by
    unfold rejectSubmission
    rw [hs]
  refine ⟨_, hdb', rfl, rfl, ?_, ?_⟩
  · rw [alook_aset, if_pos rfl, hs]
    rfl
  · intro sid' hne
    rw [alook_aset, if_neg hne]

/-- C8 witness: a concrete store with one pending submission, rejected with
reason `wrong proof`. -/
def c8Sub : Submission :=
  { name := "Mpho"
    phone := "0834567890"
    amount := 500
    paymentDate := some { year := 2025, month := 3, day := 3 }
    paymentMonth := "March 2025"
    reference := "TRF-C8AAAA"
    status := "pending"
    isLate := false
    fineAmount := 0
    memberId := none
    rejectionReason := none }

def c8DB : DB :=
  { members :=
      [("m1",
        { name := "Mpho"
          phone := "0834567890"
          totalSavings := 600
          totalFines := 0
          submissionCount := 2
          verifiedCount := 2
          status := "active"
          skippedMonths := 0 })]
    submissions := [("s1", c8Sub)]
    interestPool := [(2025, { totalFines := 50, bankInterest := 0 })] }

theorem c8_reject_frame_witness :
    alook "s1" c8DB.submissions = some c8Sub
    ∧ ∃ db', rejectSubmission c8DB "s1" "wrong proof" = .ok db'
      ∧ db'.members = c8DB.members
      ∧ db'.interestPool = c8DB.interestPool
      ∧ alook "s1" db'.submissions
          = some { c8Sub with status := "rejected",
                              rejectionReason := some "wrong proof" }
      ∧ ∀ sid', sid' ≠ "s1" →
          alook sid' db'.submissions = alook sid' c8DB.submissions :=
  ⟨rfl, c8_reject_frame c8DB "s1" "wrong proof" c8Sub rfl⟩

/-! ## Claim C5 -/

/-- C5: approving a pending submission with a member id credits exactly
`amount` to that member's `totalSavings` and `fineAmount` to `totalFines`,
increments `verifiedCount` by one, and resets `skippedMonths` to 0.  The
three sub-updates are one atomic batch: the embedded operation returns
either the whole post-approval state (`.ok`) or an error, and on an error
`runOp` shows the store is left exactly as it was — no partial update is
ever visible. -/
theorem c5_approve_credits (db : DB) (nowYear : Nat) (sid mid : String)
    (s : Submission) (m : Member)
    (hs : alook sid db.submissions = some s)
    (_hpend : s.status = "pending")
    (hm : alook mid db.members = some m) :
    (∃ db', approveSubmission db nowYear sid (some mid) = .ok db'
      ∧ alook mid db'.members
          = some { m with
              totalSavings := m.totalSavings + s.amount
              totalFines := m.totalFines + s.fineAmount
              verifiedCount := m.verifiedCount + 1
              skippedMonths := 0 })
    ∧ (∀ (db₀ : DB) (y₀ : Nat) (sid₀ : String) (mid₀ : Option String)
          (e : DbError),
        approveSubmission db₀ y₀ sid₀ mid₀ = .error e →
          runOp db₀ (.approve y₀ sid₀ mid₀) = db₀) := by
  constructor
  · have hok : approveSubmission db nowYear sid (some mid)
        = .ok { members := (aset mid { m with totalSavings := m.totalSavings + s.amount, totalFines := m.totalFines + s.fineAmount, verifiedCount := m.verifiedCount + 1, skippedMonths := 0 } db.members)
                submissions := (aset sid { s with status := "verified", memberId := some mid } db.submissions)
                interestPool := (if s.fineAmount > 0 then upsertPool nowYear s.fineAmount db.interestPool else db.interestPool) } := by
      unfold approveSubmission
      rw [hs]
      simp only [hm]
    refine ⟨_, hok, ?_⟩
    rw [alook_aset, if_pos rfl, hm]
    rfl
  · intro db₀ y₀ sid₀ mid₀ e he
    simp only [runOp, he]

/-- C5 witness: Scenario A of the spec — a new member approved on a late
R300 submission carrying a R50 fine ends with savings 300, fines 50,
one verified submission, and zero skipped months. -/
def c5Sub : Submission :=
  { name := "Tshianeo"
    phone := "0845556666"
    amount := 300
    paymentDate := some { year := 2025, month := 3, day := 10 }
    paymentMonth := "March 2025"
    reference := "TRF-C5AAAA"
    status := "pending"
    isLate := true
    fineAmount := 50
    memberId := none
    rejectionReason := none }

def c5Member : Member :=
  { name := "Tshianeo"
    phone := "0845556666"
    totalSavings := 0
    totalFines := 0
    submissionCount := 0
    verifiedCount := 0
    status := "active"
    skippedMonths := 0 }

def c5DB : DB :=
  { members := [("m1", c5Member)]
    submissions := [("s1", c5Sub)]
    interestPool := [] }

theorem c5_approve_credits_witness :
    alook "s1" c5DB.submissions = some c5Sub
    ∧ c5Sub.status = "pending"
    ∧ alook "m1" c5DB.members = some c5Member
    ∧ ((∃ db', approveSubmission c5DB 2025 "s1" (some "m1") = .ok db'
          ∧ alook "m1" db'.members
              = some { c5Member with
                  totalSavings := c5Member.totalSavings + c5Sub.amount
                  totalFines := c5Member.totalFines + c5Sub.fineAmount
                  verifiedCount := c5Member.verifiedCount + 1
                  skippedMonths := 0 })
        ∧ (∀ (db₀ : DB) (y₀ : Nat) (sid₀ : String) (mid₀ : Option String)
              (e : DbError),
            approveSubmission db₀ y₀ sid₀ mid₀ = .error e →
              runOp db₀ (.approve y₀ sid₀ mid₀) = db₀)) :=
  ⟨rfl, rfl, rfl, c5_approve_credits c5DB 2025 "s1" "m1" c5Sub c5Member rfl rfl rfl⟩

/-! ## Claim C6 -/

/-- An action is fresh for a store when the document id it creates is not
already in use (Firestore's `collection.add` always generates a fresh id). -/
def opFresh (db : DB) : Op → Prop
  | .submit _ _ newId => alook newId db.submissions = none
  | _ => True

/-- C6: a created submission has `isLate` true exactly when the payment
date's day-of-month exceeds the grace-period end day (7), `fineAmount`
equal to the late fine (50) when late and 0 otherwise — so `fineAmount > 0`
iff `isLate` — and every later operation (submit of a fresh id, add-member,
approve, reject) leaves the stored `isLate` and `fineAmount` of every
submission unchanged. -/
theorem c6_fine_iff_late (data : SubmissionData) (d : Date) (reference : String)
    (hd : data.paymentDate = some d) :
    ((newSubmission data reference).isLate = decide (d.day > graceperiodEndDay)
      ∧ (newSubmission data reference).fineAmount
          = (if (newSubmission data reference).isLate then lateFineAmount else 0)
      ∧ (0 < (newSubmission data reference).fineAmount
          ↔ (newSubmission data reference).isLate = true))
    ∧ (∀ (db : DB) (op : Op) (sid : String) (s s' : Submission),
        opFresh db op →
        alook sid db.submissions = some s →
        alook sid (runOp db op).submissions = some s' →
        s'.isLate = s.isLate ∧ s'.fineAmount = s.fineAmount) := by
  constructor
  · refine ⟨by simp [newSubmission, isPaymentLate, hd], rfl, ?_⟩
    simp only [newSubmission]
    cases isPaymentLate data.paymentDate <;> simp [lateFineAmount]
  · intro db op sid s s' hfresh hs hs'
    cases op with
    | submit data₀ ref₀ nid =>
      simp only [runOp, submitPOP, alook] at hs'
      have hne : ¬ nid = sid := by
        intro h
        subst h
        rw [(hfresh : alook nid db.submissions = none)] at hs
        exact Option.noConfusion hs
      rw [if_neg hne, hs] at hs'
      cases hs'
      exact ⟨rfl, rfl⟩
    | addMem nid data₀ =>
      simp only [runOp, addMember] at hs'
      rw [hs] at hs'
      cases hs'
      exact ⟨rfl, rfl⟩
    | approve y₀ sid₀ mid₀ =>
      simp only [runOp] at hs'
      cases hlook : alook sid₀ db.submissions with
      | none =>
        simp only [approveSubmission, hlook] at hs'
        rw [hs] at hs'
        cases hs'
        exact ⟨rfl, rfl⟩
      | some s₀ =>
        have hsub :
            ∀ msub : Option String,
              alook sid (aset sid₀ { s₀ with status := "verified", memberId := msub } db.submissions) = some s' →
              s'.isLate = s.isLate ∧ s'.fineAmount = s.fineAmount := by
          intro msub hgot
          rw [alook_aset] at hgot
          by_cases hq : sid = sid₀
          · subst hq
            rw [if_pos rfl, hlook] at hgot
            rw [hs] at hlook
            cases hlook
            cases hgot
            exact ⟨rfl, rfl⟩
          · rw [if_neg hq, hs] at hgot
            cases hgot
            exact ⟨rfl, rfl⟩
        cases mid₀ with
        | none =>
          simp only [approveSubmission, hlook] at hs'
          exact hsub none hs'
        | some mid =>
          cases hmem : alook mid db.members with
          | none =>
            simp only [approveSubmission, hlook, hmem] at hs'
            rw [hs] at hs'
            cases hs'
            exact ⟨rfl, rfl⟩
          | some m =>
            simp only [approveSubmission, hlook, hmem] at hs'
            exact hsub (some mid) hs'
    | reject sid₀ reason =>
      simp only [runOp] at hs'
      cases hlook : alook sid₀ db.submissions with
      | none =>
        simp only [rejectSubmission, hlook] at hs'
        rw [hs] at hs'
        cases hs'
        exact ⟨rfl, rfl⟩
      | some s₀ =>
        simp only [rejectSubmission, hlook] at hs'
        rw [alook_aset] at hs'
        by_cases hq : sid = sid₀
        · subst hq
          rw [if_pos rfl, hlook] at hs'
          rw [hs] at hlook
          cases hlook
          cases hs'
          exact ⟨rfl, rfl⟩
        · rw [if_neg hq, hs] at hs'
          cases hs'
          exact ⟨rfl, rfl⟩

/-- C6 witness: Scenario A's submission — payment on the 10th with grace
ending on the 7th — is late with a R50 fine, and the preservation half
applies to every store. -/
def c6Data : SubmissionData :=
  { name := "Tshianeo"
    phone := "0845556666"
    amount := 300
    paymentDate := some { year := 2025, month := 3, day := 10 }
    paymentMonth := "March 2025" }

theorem c6_fine_iff_late_witness :
    c6Data.paymentDate = some { year := 2025, month := 3, day := 10 }
    ∧ (((newSubmission c6Data "TRF-C6AAAA").isLate
          = decide ((10 : Nat) > graceperiodEndDay)
        ∧ (newSubmission c6Data "TRF-C6AAAA").fineAmount
            = (if (newSubmission c6Data "TRF-C6AAAA").isLate then lateFineAmount
               else 0)
        ∧ (0 < (newSubmission c6Data "TRF-C6AAAA").fineAmount
            ↔ (newSubmission c6Data "TRF-C6AAAA").isLate = true))
      ∧ (∀ (db : DB) (op : Op) (sid : String) (s s' : Submission),
          opFresh db op →
          alook sid db.submissions = some s →
          alook sid (runOp db op).submissions = some s' →
          s'.isLate = s.isLate ∧ s'.fineAmount = s.fineAmount)) :=
  ⟨rfl, c6_fine_iff_late c6Data { year := 2025, month := 3, day := 10 }
    "TRF-C6AAAA" rfl⟩

/-! ## Claim C2 -/

/-- The quantity the claim asserts the pool equals: the sum of `fineAmount`
over all verified submissions whose `paymentDate` falls in year `y`
(this definition follows the claim's words, for comparison with the code). -/
def verifiedFinesForYear (db : DB) (y : Nat) : Int :=
  ((db.submissions.filter (fun p =>
      p.2.status == "verified"
        && (match p.2.paymentDate with
            | some d => d.year == y
            | none => false))).map (fun p => p.2.fineAmount)).sum

/-- A late December-2024 submission, approved when the wall clock already
reads 2025. -/
def c2Sub : Submission :=
  { name := "Tshilidzi"
    phone := "0821234567"
    amount := 300
    paymentDate := some { year := 2024, month := 12, day := 10 }
    paymentMonth := "December 2024"
    reference := "TRF-C2AAAA"
    status := "pending"
    isLate := true
    fineAmount := 50
    memberId := none
    rejectionReason := none }

def c2DB : DB :=
  { members :=
      [("m1",
        { name := "Tshilidzi"
          phone := "0821234567"
          totalSavings := 0
          totalFines := 0
          submissionCount := 0
          verifiedCount := 0
          status := "active"
          skippedMonths := 0 })]
    submissions := [("s1", c2Sub)]
    interestPool := [] }

/-- C2 counterexample: `Database.approveSubmission` keys the interest-pool
credit by `new Date().getFullYear()` — the wall-clock year at approval time
— not by the submission's payment-date year.  Approving the December-2024
submission with the clock at 2025 leaves the 2024 pool at 0 even though the
sum of fines over verified submissions with payment year 2024 is 50; the
50 lands in the 2025 pool instead. -/
theorem c2_counterexample :
    (approveSubmission c2DB 2025 "s1" (some "m1")).map
        (fun db => ((getInterestPool db 2024).totalFines,
                    verifiedFinesForYear db 2024,
                    (getInterestPool db 2025).totalFines))
      = .ok (0, 50, 50)
    ∧ (0 : Int) ≠ 50 := by
  exact ⟨rfl, by decide⟩

/-- C2 amended: approving a submission with `fineAmount > 0` credits the
pool keyed by the approval-time wall-clock year (`nowYear`): that year's
`totalFines` grows by exactly the submission's `fineAmount`, and every
other year's pool is unchanged.  The pool therefore accumulates fines by
the year an approval is performed in, not by payment-date year. -/
theorem c2_amended (db db' : DB) (nowYear : Nat) (sid : String)
    (mid : Option String) (s : Submission)
    (hs : alook sid db.submissions = some s)
    (hf : 0 < s.fineAmount)
    (hok : approveSubmission db nowYear sid mid = .ok db') :
    (getInterestPool db' nowYear).totalFines
        = (getInterestPool db nowYear).totalFines + s.fineAmount
    ∧ ∀ y, y ≠ nowYear →
        (getInterestPool db' y).totalFines = (getInterestPool db y).totalFines := by
  have hpool : db'.interestPool = upsertPool nowYear s.fineAmount db.interestPool := by
    cases mid with
    | none =>
      simp only [approveSubmission, hs] at hok
      cases hok
      show (if s.fineAmount > 0 then _ else _) = _
      rw [if_pos hf]
    | some mid₀ =>
      cases hmem : alook mid₀ db.members with
      | none => simp [approveSubmission, hs, hmem] at hok
      | some m =>
        simp only [approveSubmission, hs, hmem] at hok
        cases hok
        show (if s.fineAmount > 0 then _ else _) = _
        rw [if_pos hf]
  constructor
  · rw [getInterestPool_totalFines, getInterestPool_totalFines, hpool,
      poolTotalFines_upsert_self]
  · intro y hy
    rw [getInterestPool_totalFines, getInterestPool_totalFines, hpool,
      poolTotalFines_upsert_ne _ _ _ _ hy]

/-- The state after the witness approval, read back from the operation. -/
def c2DB' : DB :=
  ((approveSubmission c2DB 2025 "s1" (some "m1")).toOption).getD emptyDB

theorem c2_amended_witness :
    alook "s1" c2DB.submissions = some c2Sub
    ∧ 0 < c2Sub.fineAmount
    ∧ approveSubmission c2DB 2025 "s1" (some "m1") = .ok c2DB'
    ∧ ((getInterestPool c2DB' 2025).totalFines
          = (getInterestPool c2DB 2025).totalFines + c2Sub.fineAmount
        ∧ ∀ y, y ≠ 2025 →
            (getInterestPool c2DB' y).totalFines
              = (getInterestPool c2DB y).totalFines) :=
  ⟨rfl, by decide, rfl,
    c2_amended c2DB c2DB' 2025 "s1" (some "m1") c2Sub rfl (by decide) rfl⟩

/-! ## Claim C9 -/

/-- The number of distinct members with a verified submission for the
month, via the `memberId` link set at approval (this definition follows the
claim's words, for comparison with the code). -/
def distinctVerifiedSubmitters (db : DB) (month year : Nat) : Nat :=
  (((db.submissions.filter (fun p =>
      p.2.paymentMonth == paymentMonthLabel month year
        && p.2.status == "verified")).filterMap
      (fun p => p.2.memberId)).dedup).length

/-- The compliance rate the claim describes: distinct verified submitters
over total members, as a rounded percentage, 0 with no members. -/
def specComplianceRate (db : DB) (month year : Nat) : Nat :=
  if db.members.length > 0
  then roundPct (distinctVerifiedSubmitters db month year) db.members.length
  else 0

/-- One member with two verified March-2025 submissions. -/
def c9Sub (ref : String) : Submission :=
  { name := "Dakalo"
    phone := "0867778888"
    amount := 300
    paymentDate := some { year := 2025, month := 3, day := 5 }
    paymentMonth := "March 2025"
    reference := ref
    status := "verified"
    isLate := false
    fineAmount := 0
    memberId := some "m1"
    rejectionReason := none }

def c9DB : DB :=
  { members :=
      [("m1",
        { name := "Dakalo"
          phone := "0867778888"
          totalSavings := 600
          totalFines := 0
          submissionCount := 2
          verifiedCount := 2
          status := "active"
          skippedMonths := 0 })]
    submissions := [("s1", c9Sub "TRF-C9AAAA"), ("s2", c9Sub "TRF-C9BBBB")]
    interestPool := [] }

/-- C9 counterexample: `generateMonthlyReport` computes the rate from the
count of verified submissions, not from distinct verified submitters.  With
one member holding two verified submissions for March 2025, the code
reports a 200 percent compliance rate while the claimed
distinct-submitter rate is 100. -/
theorem c9_counterexample :
    (generateMonthlyReport c9DB 3 2025).complianceRate = 200
    ∧ specComplianceRate c9DB 3 2025 = 100
    ∧ (200 : Nat) ≠ 100 := by
  exact ⟨rfl, rfl, by decide⟩

/-- C9 amended: the monthly report's compliance rate is the number of
verified submissions for the payment month (not distinct submitters)
divided by the total member count, as a rounded percentage, and the rate is
0 when there are no members (the filter keeps the code's order: first by
payment-month label, then by status). -/
theorem c9_amended (db : DB) (month year : Nat) :
    (generateMonthlyReport db month year).complianceRate
        = (if db.members.length > 0
           then roundPct (generateMonthlyReport db month year).subsVerified
                  db.members.length
           else 0)
    ∧ (generateMonthlyReport db month year).subsVerified
        = ((db.submissions.filter
              (fun p => p.2.paymentMonth == paymentMonthLabel month year)).filter
            (fun p => p.2.status == "verified")).length
    ∧ (generateMonthlyReport { db with members := [] } month year).complianceRate
        = 0 :=
  ⟨rfl, rfl, rfl⟩

/-! ## Claim C4 -/

/-- The member-field invariant the code actually maintains: every member
document it ever writes has `status = 'active'` and `skippedMonths = 0`
(created that way by `addMember`; `approveSubmission` resets
`skippedMonths` to 0 and never touches `status`). -/
def memberInv (m : Member) : Prop :=
  m.status = "active" ∧ m.skippedMonths = 0

def dbMembersInv (db : DB) : Prop :=
  ∀ mid m, alook mid db.members = some m → memberInv m

theorem dbMembersInv_empty : dbMembersInv emptyDB := by
  intro mid m hm
  exact Option.noConfusion hm

theorem dbMembersInv_runOp (db : DB) (op : Op) (h : dbMembersInv db) :
    dbMembersInv (runOp db op) := by
  cases op with
  | submit data reference newId => exact h
  | addMem newId data =>
    intro mid m hm
    simp only [runOp, addMember, alook] at hm
    by_cases hq : newId = mid
    · rw [if_pos hq] at hm
      cases hm
      exact ⟨rfl, rfl⟩
    · rw [if_neg hq] at hm
      exact h mid m hm
  | approve y₀ sid₀ mid₀ =>
    intro mid m hm
    simp only [runOp] at hm
    cases hlook : alook sid₀ db.submissions with
    | none =>
      simp only [approveSubmission, hlook] at hm
      exact h mid m hm
    | some s₀ =>
      cases mid₀ with
      | none =>
        simp only [approveSubmission, hlook] at hm
        exact h mid m hm
      | some mid₁ =>
        cases hmem : alook mid₁ db.members with
        | none =>
          simp only [approveSubmission, hlook, hmem] at hm
          exact h mid m hm
        | some m₁ =>
          simp only [approveSubmission, hlook, hmem] at hm
          rw [alook_aset] at hm
          by_cases hq : mid = mid₁
          · rw [if_pos hq, hmem, Option.map_some'] at hm
            cases hm
            exact ⟨(h mid₁ m₁ hmem).1, rfl⟩
          · rw [if_neg hq] at hm
            exact h mid m hm
  | reject sid₀ reason =>
    intro mid m hm
    simp only [runOp] at hm
    cases hlook : alook sid₀ db.submissions with
    | none =>
      simp only [rejectSubmission, hlook] at hm
      exact h mid m hm
    | some s₀ =>
      simp only [rejectSubmission, hlook] at hm
      exact h mid m hm

theorem dbMembersInv_runOps (ops : List Op) (db : DB) (h : dbMembersInv db) :
    dbMembersInv (runOps db ops) := by
  induction ops generalizing db with
  | nil => exact h
  | cons op ops ih => exact ih (runOp db op) (dbMembersInv_runOp db op h)

/-- A member record whose skip count has reached the threshold while its
status still reads active — the shape of store the claim's biconditional
must rule out. -/
def c4Member : Member :=
  { name := "Orifha"
    phone := "0823334444"
    totalSavings := 900
    totalFines := 0
    submissionCount := 3
    verifiedCount := 3
    status := "active"
    skippedMonths := 3 }

def c4DB : DB :=
  { members := [("m1", c4Member)]
    submissions :=
      [("s1",
        { name := "Orifha"
          phone := "0823334444"
          amount := 300
          paymentDate := some { year := 2025, month := 4, day := 5 }
          paymentMonth := "April 2025"
          reference := "TRF-C4AAAA"
          status := "pending"
          isLate := false
          fineAmount := 0
          memberId := none
          rejectionReason := none })]
    interestPool := [] }

/-- C4 counterexample: no operation derives suspension.  Starting from a
store whose member already shows `skippedMonths = 3 ≥ maxSkippedMonths`
with `status = 'active'`, running an operation (here a rejection of a
pending submission) leaves the member exactly as it was: skip count at the
threshold and status still `'active'`, never `'suspended'` — so after an
operation the claimed biconditional `status = suspended ↔ skippedMonths ≥
maxSkippedMonths` fails, and no operation sets `'suspended'` once the
threshold is reached. -/
theorem c4_counterexample :
    alook "m1" (runOp c4DB (.reject "s1" "no proof attached")).members
        = some c4Member
    ∧ c4Member.status ≠ "suspended"
    ∧ maxSkippedMonths ≤ c4Member.skippedMonths := by
  exact ⟨rfl, by decide, by decide⟩

/-- C4 amended: the code never increments `skippedMonths` and never sets
`status = 'suspended'`.  In every store reachable from the empty store by
the code's operations, every member has `status = 'active'` and
`skippedMonths = 0`, so the claimed biconditional holds only vacuously
(both sides false) and suspension is never produced. -/
theorem c4_amended (ops : List Op) (mid : String) (m : Member)
    (h : alook mid (runOps emptyDB ops).members = some m) :
    m.status = "active" ∧ m.skippedMonths = 0
    ∧ (m.status = "suspended" ↔ maxSkippedMonths ≤ m.skippedMonths) := by
  obtain ⟨hst, hsk⟩ := dbMembersInv_runOps ops emptyDB dbMembersInv_empty mid m h
  refine ⟨hst, hsk, ?_⟩
  rw [hst, hsk]
  constructor
  · intro hc
    exact absurd hc (by decide)
  · intro hc
    exact absurd hc (by decide)

/-- C4 witness: after adding one member the theorem applies to it. -/
theorem c4_amended_witness :
    alook "m1" (runOps emptyDB
        [.addMem "m1" { name := "Orifha", phone := "0823334444" }]).members
      = some { name := "Orifha", phone := "0823334444", totalSavings := 0,
               totalFines := 0, submissionCount := 0, verifiedCount := 0,
               status := "active", skippedMonths := 0 }
    ∧ ({ name := "Orifha", phone := "0823334444", totalSavings := 0,
         totalFines := 0, submissionCount := 0, verifiedCount := 0,
         status := "active", skippedMonths := 0 : Member }.status = "active"
        ∧ ({ name := "Orifha", phone := "0823334444", totalSavings := 0,
             totalFines := 0, submissionCount := 0, verifiedCount := 0,
             status := "active", skippedMonths := 0 : Member }).skippedMonths = 0
        ∧ (({ name := "Orifha", phone := "0823334444", totalSavings := 0,
              totalFines := 0, submissionCount := 0, verifiedCount := 0,
              status := "active", skippedMonths := 0 : Member }).status
              = "suspended"
            ↔ maxSkippedMonths
                ≤ ({ name := "Orifha", phone := "0823334444", totalSavings := 0,
                     totalFines := 0, submissionCount := 0, verifiedCount := 0,
                     status := "active", skippedMonths := 0 : Member }).skippedMonths)) :=
  ⟨rfl, c4_amended [.addMem "m1" { name := "Orifha", phone := "0823334444" }]
    "m1" _ rfl⟩

/-! ## Claim C1 -/

/-- A submission that was already approved once: status `'verified'`,
linked to member m1, amount 300 with a R50 late fine. -/
def c1Sub : Submission :=
  { name := "Khathutshelo"
    phone := "0812223333"
    amount := 300
    paymentDate := some { year := 2025, month := 3, day := 10 }
    paymentMonth := "March 2025"
    reference := "TRF-C1AAAA"
    status := "verified"
    isLate := true
    fineAmount := 50
    memberId := some "m1"
    rejectionReason := none }

/-- The member as the first approval left it. -/
def c1Member : Member :=
  { name := "Khathutshelo"
    phone := "0812223333"
    totalSavings := 300
    totalFines := 50
    submissionCount := 1
    verifiedCount := 1
    status := "active"
    skippedMonths := 0 }

def c1DB : DB :=
  { members := [("m1", c1Member)]
    submissions := [("s1", c1Sub)]
    interestPool := [(2025, { totalFines := 50, bankInterest := 0 })] }

/-- C1 failing input, evaluated: neither `approveSubmission` nor
`rejectSubmission` checks that the current status is `'pending'`.
Approving the already-verified submission s1 a second time succeeds (no
`InvalidStateTransition`) and double-credits the ledger: the member's
totals grow to 600/100 with `verifiedCount` 2 and the 2025 pool doubles to
100.  Rejecting the already-verified submission also succeeds and moves it
verified→rejected, a transition the claim says is impossible. -/
theorem c1_no_state_guard :
    (approveSubmission c1DB 2025 "s1" (some "m1")).map
        (fun db => ((alook "m1" db.members).map Member.totalSavings,
                    (alook "m1" db.members).map Member.totalFines,
                    (alook "m1" db.members).map Member.verifiedCount,
                    (getInterestPool db 2025).totalFines,
                    (alook "s1" db.submissions).map Submission.status))
      = .ok (some 600, some 100, some 2, 100, some "verified")
    ∧ (rejectSubmission c1DB "s1" "second thoughts").map
        (fun db => (alook "s1" db.submissions).map Submission.status)
      = .ok (some "rejected")
    ∧ c1Sub.status ≠ "pending" :=
  ⟨rfl, rfl, by decide⟩

end Stokvel
